import Mathlib

/-
  Verification development for the consumer Component engine
  (src/consumer/component/consumer-component.js).

  Paths are modelled as lists of characters (`Path`), strings that are only
  compared or concatenated stay `String`.  JavaScript `undefined`/`null` is
  modelled with `Option`; functions that `throw` return `Except`.
-/

namespace BitCore

/-- A file-system path, modelled as its list of characters. -/
abbrev Path := List Char

/-- Model of `pathNormalizeToLinux` from utils (missing from src/):
it rewrites Windows back-slashes to forward slashes. -/
def pathNormalizeToLinux (p : Path) : Path :=
  p.map (fun ch => if ch = '\\' then '/' else ch)

/-- Split a path at '/' characters; accumulator holds the current segment
reversed. -/
def splitSlashAux : Path → Path → List Path
  | [], acc => [acc.reverse]
  | '/' :: rest, acc => acc.reverse :: splitSlashAux rest []
  | ch :: rest, acc => splitSlashAux rest (ch :: acc)

/-- Split a path into its '/'-separated segments. -/
def splitSlash (p : Path) : List Path := splitSlashAux p []

/-- Resolve "." and ".." segments the way Node's posix normalizer does:
"." and empty segments are dropped; ".." pops the previous segment, except
that leading ".." segments of a relative path are kept and any ".." of an
absolute path that would escape the root is dropped. -/
def resolveDots (isAbs : Bool) (segs : List Path) : List Path :=
  segs.foldl
    (fun acc s =>
      if s = [] ∨ s = ['.'] then acc
      else if s = ['.', '.'] then
        match acc.getLast? with
        | some l => if l = ['.', '.'] then acc ++ [s] else acc.dropLast
        | none => if isAbs then acc else [s]
      else acc ++ [s])
    []

/-- Join segments back with '/' separators. -/
def joinSlash : List Path → Path
  | [] => []
  | [s] => s
  | s :: rest => s ++ '/' :: joinSlash rest

/-- Model of Node's posix `path.normalize` (an external library used by the
constructor and by `stripOriginallySharedDir`).  The documented behaviour
that matters here: a zero-length string normalizes to ".", and a non-empty
string never normalizes to the empty string.  Trailing-slash preservation
is not modelled. -/
def normalizePath (p : Path) : Path :=
  if p = [] then ['.']
  else
    let isAbs := p.head? = some '/'
    let core := joinSlash (resolveDots isAbs (splitSlash p))
    if isAbs then '/' :: core
    else if core = [] then ['.']
    else core

/-- Boolean test for a '/' character, modelling `String.prototype.includes('/')`. -/
def hasSlash : Path → Bool
  | [] => false
  | ch :: t => if ch = '/' then true else hasSlash t

/-- Longest common prefix of two character lists. -/
def lcp2 : Path → Path → Path
  | a :: as, b :: bs => if a = b then a :: lcp2 as bs else []
  | _, _ => []

/-- Modelled from the spec: `sharedStartOfArray` from utils (missing from
src/) returns the longest common leading substring of all given strings
(empty for an empty array). -/
def sharedStartOfArray : List Path → Path
  | [] => []
  | p :: rest => rest.foldl lcp2 p

/-- The part of a path strictly before its last '/', i.e. JavaScript
`s.substring(0, s.lastIndexOf('/'))` for a string that contains a slash. -/
def takeBeforeLastSlash : Path → Path
  | [] => []
  | ch :: t => if hasSlash t then ch :: takeBeforeLastSlash t else []

/-- Boolean list-prefix test. -/
def isPref : Path → Path → Bool
  | [], _ => true
  | _ :: _, [] => false
  | a :: as, b :: bs => if a = b then isPref as bs else false

/-- Replace the first occurrence of `pat` in `hay` by the empty string,
modelling the JavaScript `hay.replace(pat, '')` with a string pattern. -/
def replaceFirst (hay pat : Path) : Path :=
  match hay with
  | [] => []
  | h :: t => if isPref pat (h :: t) then (h :: t).drop pat.length else h :: replaceFirst t pat

/-- The inner `pathWithoutSharedDir` helper of `stripOriginallySharedDir`:
when a shared directory is present, remove the first occurrence of
`normalize(sharedDir) + '/'` from the path. -/
def pathWithoutSharedDir (pathStr : Path) (sharedDir : Option Path) : Path :=
  match sharedDir with
  | none => pathStr
  | some sd => if sd = [] then pathStr else replaceFirst pathStr (normalizePath sd ++ ['/'])

/-- A source file of the component (relative path, base dir, absolute path,
contents, test flag). -/
structure SourceFile where
  relative : Path
  base : Path
  path : Path
  contents : String
  test : Bool
deriving DecidableEq, Repr

/-- A build artifact (dist). `contents = none` models a compiler output
without textual contents. -/
structure Dist where
  relative : Path
  path : Path
  test : Bool
  contents : Option String
deriving DecidableEq, Repr

/-- A component dependency record: target identity string plus the relative
source paths that referenced it. -/
structure Dependency where
  id : String
  sourcePaths : List Path
deriving DecidableEq, Repr

/-- Modelled from the spec: `Dependencies.getSourcesPaths` (the Dependencies
class is missing from src/) collects the recorded relative source paths of
every record. -/
def getSourcesPaths (deps : List Dependency) : List Path :=
  (deps.map (fun d => d.sourcePaths)).flatten

/-- Modelled from the spec: `Dependencies.stripOriginallySharedDir` rewrites
every recorded source path by removing the shared-prefix segment. -/
def stripDepsSourcePaths (deps : List Dependency) (sharedDir : Option Path) : List Dependency :=
  deps.map (fun d => { d with sourcePaths := d.sourcePaths.map (fun p => pathWithoutSharedDir p sharedDir) })

/-- Modelled from the spec: `Dependencies.getByIdStr` returns the first
record whose identity string matches. -/
def getByIdStr (deps : List Dependency) (id : String) : Option Dependency :=
  deps.find? (fun d => d.id = id)

/-- A documentation doclet; its internal structure is irrelevant here. -/
abbrev Doclet := String

/-- A license, reduced to its observable text. -/
structure License where
  contents : String
deriving DecidableEq, Repr

/-- A creation log entry. -/
structure Log where
  message : String
deriving DecidableEq, Repr

/-- A single recorded test failure. -/
structure SpecFailure where
  title : String
deriving DecidableEq, Repr

/-- The raw per-file test result produced by a tester run. -/
structure RawTestResult where
  specPath : Path
  pass : Bool
  tests : List String
  failures : List SpecFailure
deriving DecidableEq, Repr

/-- Outcome of calling into pluggable JavaScript code: it either returns a
value or throws. -/
inductive JsOutcome (α : Type) where
  | thrown (msg : String)
  | ret (v : α)
deriving DecidableEq, Repr

/-- A compiler plugin: `action` is the modern contract, `oldAction` the
legacy one; `JsOutcome.ret none` for the modern action models a response
without a `files` field (`compiler return invalid response`). -/
structure Compiler where
  name : String
  action : Option (List SourceFile → JsOutcome (Option (List Dist)))
  oldAction : Option (List SourceFile → JsOutcome (List Dist))

/-- A tester plugin with the modern batch contract and the legacy per-file
contract. -/
structure Tester where
  action : Option (List Path → JsOutcome (List RawTestResult))
  oldAction : Option (Path → JsOutcome RawTestResult)

/-- Component origin in the workspace index. -/
inductive Origin where
  | authored
  | imported
  | nested
deriving DecidableEq, Repr

/-- A custom-resolved path entry. -/
structure CustomResolvedPath where
  destinationPath : Path
  importSource : String
deriving DecidableEq, Repr

/-- Default value of the `lang` field (`DEFAULT_LANGUAGE` in constants). -/
def DEFAULT_LANGUAGE : String := r"javascript"

/-- Default value of the binding-prefix field (constants). -/
def defaultBindingsPref : String := r"@bit"

/-- The in-memory Component aggregate.  `docsCache` models the private
`_docs` memo, `files` the private `_files` field (the getter returns it
unchanged once it holds typed file objects), `originallySharedDir = none`
models the JavaScript `undefined` ("not yet computed"). -/
structure Component where
  name : String
  version : Option String
  scope : Option String
  lang : String
  bindingPref : String
  mainFile : Path
  compiler : Option Compiler
  tester : Option Tester
  dependencies : List Dependency
  devDependencies : List Dependency
  compilerDependencies : List Dependency
  testerDependencies : List Dependency
  packageDependencies : List (String × String)
  devPackageDependencies : List (String × String)
  peerPackageDependencies : List (String × String)
  compilerPackageDependencies : List (String × String)
  testerPackageDependencies : List (String × String)
  docsCache : Option (List Doclet)
  files : Option (List SourceFile)
  dists : List Dist
  specsResults : Option (List RawTestResult)
  license : Option License
  log : Option Log
  deprecated : Bool
  origin : Option Origin
  detachedCompiler : Option Bool
  detachedTester : Option Bool
  customResolvedPaths : List CustomResolvedPath
  originallySharedDir : Option Path
  wasOriginallySharedDirStripped : Bool

/-- The constructor's argument object (`ComponentProps`); `Option` models
fields that may be absent. -/
structure ComponentProps where
  name : String
  version : Option String := none
  scope : Option String := none
  lang : Option String := none
  bindingPref : Option String := none
  mainFile : Path
  compiler : Option Compiler := none
  tester : Option Tester := none
  dependencies : Option (List Dependency) := none
  devDependencies : Option (List Dependency) := none
  compilerDependencies : Option (List Dependency) := none
  testerDependencies : Option (List Dependency) := none
  packageDependencies : Option (List (String × String)) := none
  devPackageDependencies : Option (List (String × String)) := none
  peerPackageDependencies : Option (List (String × String)) := none
  compilerPackageDependencies : Option (List (String × String)) := none
  testerPackageDependencies : Option (List (String × String)) := none
  files : Option (List SourceFile) := none
  docs : Option (List Doclet) := none
  dists : Option (List Dist) := none
  specsResults : Option (List RawTestResult) := none
  license : Option License := none
  log : Option Log := none
  deprecated : Option Bool := none
  origin : Option Origin := none
  detachedCompiler : Option Bool := none
  detachedTester : Option Bool := none
  customResolvedPaths : Option (List CustomResolvedPath) := none

/-- JavaScript `x || d` for an optional string: absent or empty falls back
to the default. -/
def jsOrStr (o : Option String) (d : String) : String :=
  match o with
  | none => d
  | some s => if s = r"" then d else s

/-- The Component constructor followed by `validateComponent()`.  Note that
the source normalizes `mainFile` with `path.normalize` BEFORE the
validation loop runs, and the validation checks the fields in the order
`name`, `mainFile` for JavaScript falsiness. -/
def mkComponent (p : ComponentProps) : Except String Component :=
  let c : Component := {
    name := p.name
    version := p.version
    scope := p.scope
    lang := jsOrStr p.lang DEFAULT_LANGUAGE
    bindingPref := jsOrStr p.bindingPref defaultBindingsPref
    mainFile := normalizePath p.mainFile
    compiler := p.compiler
    tester := p.tester
    dependencies := p.dependencies.getD []
    devDependencies := p.devDependencies.getD []
    compilerDependencies := p.compilerDependencies.getD []
    testerDependencies := p.testerDependencies.getD []
    packageDependencies := p.packageDependencies.getD []
    devPackageDependencies := p.devPackageDependencies.getD []
    peerPackageDependencies := p.peerPackageDependencies.getD []
    compilerPackageDependencies := p.compilerPackageDependencies.getD []
    testerPackageDependencies := p.testerPackageDependencies.getD []
    docsCache := p.docs
    files := p.files
    dists := p.dists.getD []
    specsResults := p.specsResults
    license := p.license
    log := p.log
    deprecated := p.deprecated.getD false
    origin := p.origin
    detachedCompiler := p.detachedCompiler
    detachedTester := p.detachedTester
    customResolvedPaths := p.customResolvedPaths.getD []
    originallySharedDir := none
    wasOriginallySharedDirStripped := false
  }
  if c.name = r"" then Except.error (r"the field name can not be empty")
  else if c.mainFile = [] then Except.error (r"the field mainFile can not be empty")
  else Except.ok c

/-- The `files` getter: returns the private field (`null` when unset; the
raw-deserialized-shape branch is not modelled because the embedded fields
are already typed). -/
def Component.getFiles (c : Component) : Option (List SourceFile) :=
  c.files

/-- The `docs` getter: computes the doclet list from the files on first
access (empty when there are no files) and memoizes it in `_docs`; returns
the pair of the produced value and the updated component.  `parser` stands
for the external `docsParser`. -/
def Component.getDocs (parser : String → Path → List Doclet) (c : Component) :
    List Doclet × Component :=
  match c.docsCache with
  | some d => (d, c)
  | none =>
    let d := match c.files with
      | some fs => (fs.map (fun f => parser f.contents f.relative)).flatten
      | none => []
    (d, { c with docsCache := some d })

/-- The path list that `setOriginallySharedDir` builds: the component's own
relative file paths (normalized to linux style) followed by the recorded
source paths of the four dependency classes, in source order. -/
def Component.allSharedPaths (c : Component) : List Path :=
  ((c.getFiles.getD []).map (fun f => pathNormalizeToLinux f.relative))
    ++ getSourcesPaths c.dependencies
    ++ getSourcesPaths c.devDependencies
    ++ getSourcesPaths c.compilerDependencies
    ++ getSourcesPaths c.testerDependencies

/-- `setOriginallySharedDir()`: early-returns when already computed,
otherwise records the longest shared prefix truncated at its last '/';
when the shared start is falsy or contains no separator nothing is
recorded. -/
def Component.setOriginallySharedDir (c : Component) : Component :=
  if c.originallySharedDir ≠ none then c
  else
    let sharedStart := sharedStartOfArray c.allSharedPaths
    if sharedStart = [] then c
    else if hasSlash sharedStart = false then c
    else { c with originallySharedDir := some (takeBeforeLastSlash sharedStart) }

/-- `stripOriginallySharedDir()`: guarded by the
`_wasOriginallySharedDirStripped` flag; computes the shared directory and
removes it from every own file path, every dist path, the main file, the
recorded source paths of the four dependency classes and every
custom-resolved destination path. -/
def Component.stripOriginallySharedDir (c : Component) : Component :=
  if c.wasOriginallySharedDirStripped then c
  else
    let c1 := c.setOriginallySharedDir
    let osd := c1.originallySharedDir
    { c1 with
      files := c1.files.map (fun fs => fs.map (fun f => { f with relative := pathWithoutSharedDir f.relative osd }))
      dists := c1.dists.map (fun d => { d with relative := pathWithoutSharedDir d.relative osd })
      mainFile := pathWithoutSharedDir c1.mainFile osd
      dependencies := stripDepsSourcePaths c1.dependencies osd
      devDependencies := stripDepsSourcePaths c1.devDependencies osd
      compilerDependencies := stripDepsSourcePaths c1.compilerDependencies osd
      testerDependencies := stripDepsSourcePaths c1.testerDependencies osd
      customResolvedPaths := c1.customResolvedPaths.map
        (fun cp => { cp with destinationPath := pathNormalizeToLinux (pathWithoutSharedDir (normalizePath cp.destinationPath) osd) })
      wasOriginallySharedDirStripped := true }

/-- `copyFilesIntoDists()`: replaces the dists by a copy of the source
files. -/
def Component.copyFilesIntoDists (c : Component) : Component :=
  { c with
    dists := (c.getFiles.getD []).map
      (fun f => { relative := f.relative, path := f.path, test := false, contents := some f.contents }) }

/-- The plain structural snapshot produced by `toObject()` and consumed by
`fromObject()`.  `box` is only ever read by `fromObject` (legacy documents);
`toObject` never writes it.  Compiler/tester descriptors and the
serialized forms of the dependency sets, dists, specs results and license
are modelled as the values themselves: their serializer/deserializer pairs
live outside src/ and the spec requires them to be content-stable. -/
structure SerializedComponent where
  box : Option String := none
  name : String
  version : Option String
  mainFile : Path
  scope : Option String
  lang : String
  bindingPref : String
  compiler : Option Compiler
  tester : Option Tester
  detachedCompiler : Option Bool
  detachedTester : Option Bool
  dependencies : List Dependency
  devDependencies : List Dependency
  compilerDependencies : List Dependency
  testerDependencies : List Dependency
  packageDependencies : List (String × String)
  devPackageDependencies : List (String × String)
  peerPackageDependencies : List (String × String)
  compilerPackageDependencies : List (String × String)
  testerPackageDependencies : List (String × String)
  files : Option (List SourceFile)
  docs : List Doclet
  dists : Option (List Dist)
  specsResults : Option (List RawTestResult)
  license : Option License
  log : Option Log
  deprecated : Option Bool

/-- `toObject()`.  It reads the `files` and `docs` getters (so the doclets
are computed on demand via `parser`) and always emits every field. -/
def Component.toObject (parser : String → Path → List Doclet) (c : Component) :
    SerializedComponent :=
  { box := none
    name := c.name
    version := c.version
    mainFile := c.mainFile
    scope := c.scope
    lang := c.lang
    bindingPref := c.bindingPref
    compiler := c.compiler
    tester := c.tester
    detachedCompiler := c.detachedCompiler
    detachedTester := c.detachedTester
    dependencies := c.dependencies
    devDependencies := c.devDependencies
    compilerDependencies := c.compilerDependencies
    testerDependencies := c.testerDependencies
    packageDependencies := c.packageDependencies
    devPackageDependencies := c.devPackageDependencies
    peerPackageDependencies := c.peerPackageDependencies
    compilerPackageDependencies := c.compilerPackageDependencies
    testerPackageDependencies := c.testerPackageDependencies
    files := c.getFiles
    docs := (c.getDocs parser).1
    dists := some c.dists
    specsResults := c.specsResults
    license := c.license
    log := c.log
    deprecated := some c.deprecated }

/-- `fromObject()`: rebuilds a component through the constructor.  Note
that the source destructures neither `log`, `origin` nor
`customResolvedPaths` from the object, that a legacy `box` is folded into
the name, and that `deprecated` falls back to `false`. -/
def Component.fromObject (o : SerializedComponent) : Except String Component :=
  mkComponent {
    name := match o.box with
      | some b => b ++ r"/" ++ o.name
      | none => o.name
    version := o.version
    scope := o.scope
    lang := some o.lang
    bindingPref := some o.bindingPref
    mainFile := o.mainFile
    compiler := o.compiler
    tester := o.tester
    detachedCompiler := o.detachedCompiler
    detachedTester := o.detachedTester
    dependencies := some o.dependencies
    devDependencies := some o.devDependencies
    compilerDependencies := some o.compilerDependencies
    testerDependencies := some o.testerDependencies
    packageDependencies := some o.packageDependencies
    devPackageDependencies := some o.devPackageDependencies
    peerPackageDependencies := some o.peerPackageDependencies
    compilerPackageDependencies := some o.compilerPackageDependencies
    testerPackageDependencies := some o.testerPackageDependencies
    files := o.files
    docs := some o.docs
    dists := o.dists
    specsResults := o.specsResults
    license := o.license
    deprecated := some (o.deprecated.getD false) }

/-- A parsed dist record before `Dist.loadFromParsedStringArray` is applied
to it. -/
structure DistObj where
  relative : Path
  path : Path
  test : Bool
  contents : String
deriving DecidableEq, Repr

/-- Modelled from the spec: `Dist.loadFromParsedStringArray` (sources/dist
is missing from src/) turns one parsed record into a typed dist. -/
def loadDistFromParsed (o : DistObj) : Dist :=
  { relative := o.relative, path := o.path, test := o.test, contents := some o.contents }

/-- The shape of the `dists` field of a parsed JSON document: absent, a
bare array (legacy servers) or a wrapped object with a `dists` key
(current servers). -/
inductive DistsField where
  | absent
  | arr (dists : List DistObj)
  | wrapped (dists : List DistObj)
deriving DecidableEq, Repr

/-- The dists normalization inside `fromString`: a bare array is loaded
directly (`object.dists && Array.isArray(object.dists)`; arrays are always
truthy in JavaScript, so this also fires for `[]`); a wrapped object loads
its inner array (`object.dists && object.dists.dists`; the inner array is
an object and hence truthy, even when empty). -/
def normalizeDistsField : DistsField → Option (List Dist)
  | DistsField.arr l => some (l.map loadDistFromParsed)
  | DistsField.wrapped l => some (l.map loadDistFromParsed)
  | DistsField.absent => none

/-- A JSON document already parsed by `JSON.parse`, with the `files` field
already put through `SourceFile.loadFromParsedStringArray` (that loader
lives outside src/ and is modelled as producing the typed list). -/
structure ParsedDoc where
  box : Option String := none
  name : String
  version : Option String
  mainFile : Path
  scope : Option String
  lang : String
  bindingPref : String
  compiler : Option Compiler
  tester : Option Tester
  detachedCompiler : Option Bool
  detachedTester : Option Bool
  dependencies : List Dependency
  devDependencies : List Dependency
  compilerDependencies : List Dependency
  testerDependencies : List Dependency
  packageDependencies : List (String × String)
  devPackageDependencies : List (String × String)
  peerPackageDependencies : List (String × String)
  compilerPackageDependencies : List (String × String)
  testerPackageDependencies : List (String × String)
  files : Option (List SourceFile)
  docs : List Doclet
  dists : DistsField
  specsResults : Option (List RawTestResult)
  license : Option License
  log : Option Log
  deprecated : Option Bool

/-- `fromString` after `JSON.parse`: normalizes the dists field and
delegates to `fromObject`. -/
def fromStringModel (doc : ParsedDoc) : Except String Component :=
  Component.fromObject {
    box := doc.box
    name := doc.name
    version := doc.version
    mainFile := doc.mainFile
    scope := doc.scope
    lang := doc.lang
    bindingPref := doc.bindingPref
    compiler := doc.compiler
    tester := doc.tester
    detachedCompiler := doc.detachedCompiler
    detachedTester := doc.detachedTester
    dependencies := doc.dependencies
    devDependencies := doc.devDependencies
    compilerDependencies := doc.compilerDependencies
    testerDependencies := doc.testerDependencies
    packageDependencies := doc.packageDependencies
    devPackageDependencies := doc.devPackageDependencies
    peerPackageDependencies := doc.peerPackageDependencies
    compilerPackageDependencies := doc.compilerPackageDependencies
    testerPackageDependencies := doc.testerPackageDependencies
    files := doc.files
    docs := doc.docs
    dists := normalizeDistsField doc.dists
    specsResults := doc.specsResults
    license := doc.license
    log := doc.log
    deprecated := doc.deprecated }

/-- Errors that build orchestration can surface. -/
inductive BuildError where
  | invalidCompilerInterface (name : String)
  | externalBuildError (msg : String)
  | generalError (msg : String)
deriving DecidableEq, Repr

/-- Which plugin call contract was actually invoked. -/
inductive ContractKind where
  | modern
  | legacy
deriving DecidableEq, Repr

/-- Result of `buildIfNeeded`: without a compiler the source resolves a
`{code: ''}` stub, otherwise it yields the artifact list. -/
inductive BuildIfNeededResult where
  | noCompiler
  | built (files : List Dist)
deriving DecidableEq, Repr

/-- Decidable equality for `Except`, used to evaluate build outcomes on
concrete inputs. -/
instance exceptDecEq {ε α : Type} [DecidableEq ε] [DecidableEq α] : DecidableEq (Except ε α) :=
  fun x y =>
    match x, y with
    | Except.ok a, Except.ok b =>
      if h : a = b then Decidable.isTrue (by rw [h])
      else Decidable.isFalse (by intro hh; cases hh; exact h rfl)
    | Except.error a, Except.error b =>
      if h : a = b then Decidable.isTrue (by rw [h])
      else Decidable.isFalse (by intro hh; cases hh; exact h rfl)
    | Except.ok _, Except.error _ => Decidable.isFalse (by intro hh; cases hh)
    | Except.error _, Except.ok _ => Decidable.isFalse (by intro hh; cases hh)

/-- Outcome of `buildIfNeeded` together with the contract that was
invoked (if any). -/
structure BuildIfNeededOutcome where
  result : Except BuildError BuildIfNeededResult
  contractUsed : Option ContractKind
deriving DecidableEq, Repr

/-- `buildIfNeeded`: resolves a stub without a compiler; rejects with
`InvalidCompilerInterface` when NEITHER `action` nor `oldAction` is
present; otherwise invokes the modern `action` when it exists (a thrown
error or a response without files becomes an `ExternalBuildError`), and
falls back to the legacy `oldAction`. -/
def buildIfNeeded (compiler : Option Compiler) (files : List SourceFile) :
    BuildIfNeededOutcome :=
  match compiler with
  | none => { result := Except.ok BuildIfNeededResult.noCompiler, contractUsed := none }
  | some comp =>
    if comp.action.isNone && comp.oldAction.isNone then
      { result := Except.error (BuildError.invalidCompilerInterface comp.name), contractUsed := none }
    else
      match comp.action with
      | some act =>
        match act files with
        | JsOutcome.thrown msg =>
          { result := Except.error (BuildError.externalBuildError msg), contractUsed := some ContractKind.modern }
        | JsOutcome.ret none =>
          { result := Except.error (BuildError.externalBuildError (r"compiler return invalid response")),
            contractUsed := some ContractKind.modern }
        | JsOutcome.ret (some fs) =>
          { result := Except.ok (BuildIfNeededResult.built fs), contractUsed := some ContractKind.modern }
      | none =>
        match comp.oldAction with
        | some oldA =>
          match oldA files with
          | JsOutcome.thrown msg =>
            { result := Except.error (BuildError.externalBuildError msg), contractUsed := some ContractKind.legacy }
          | JsOutcome.ret fs =>
            { result := Except.ok (BuildIfNeededResult.built fs), contractUsed := some ContractKind.legacy }
        | none =>
          { result := Except.error (BuildError.invalidCompilerInterface comp.name), contractUsed := none }

/-- The workspace-index record for the component
(`bitMap.getComponentIfExist(this.id)`). -/
structure ComponentMapRec where
  origin : Origin
  rootDir : Option Path
deriving DecidableEq, Repr

/-- The slice of the workspace (consumer) context that `build` consults:
whether the component is modified relative to its last snapshot
(`consumer.getComponentStatusById(this.id).modified`), whether dists live
inside the component directory, and the component's index record. -/
structure ConsumerCtx where
  modified : Bool
  distsInsideComponent : Bool
  componentMap : Option ComponentMapRec

/-- Outcome of `build()`: the returned value (`none` models the `null`
return), the possibly mutated component, whether the cached-dists skip
path was taken, and which compiler contract (if any) was invoked. -/
structure BuildOutcome where
  result : Except BuildError (Option (List Dist))
  comp : Component
  skippedWithCache : Bool
  contractUsed : Option ContractKind

/-- `build()`.  Without a compiler: `null`, unless dists are configured
outside the component directory, in which case the sources are copied into
the dists.  With a compiler: `isNeededToReBuild` is true when `noCache` is
set, false without a consumer, and otherwise the consumer's modified
status; when no rebuild is needed and cached dists exist they are
returned, after re-applying the shared-directory strip for an IMPORTED
component; otherwise the compiler is run through `buildIfNeeded` and every
artifact must expose textual contents. -/
def Component.build (c : Component) (noCache : Bool) (consumer : Option ConsumerCtx) :
    BuildOutcome :=
  match c.compiler with
  | none =>
    match consumer with
    | none => { result := Except.ok none, comp := c, skippedWithCache := false, contractUsed := none }
    | some ctx =>
      if ctx.distsInsideComponent then
        { result := Except.ok none, comp := c, skippedWithCache := false, contractUsed := none }
      else
        let c2 := c.copyFilesIntoDists
        { result := Except.ok (some c2.dists), comp := c2, skippedWithCache := false, contractUsed := none }
  | some comp =>
    let needToRebuild := if noCache then true else
      match consumer with
      | none => false
      | some ctx => ctx.modified
    if needToRebuild = false ∧ c.dists ≠ [] then
      let c2 := match consumer with
        | some ctx =>
          (match ctx.componentMap with
           | some m => if m.origin = Origin.imported then c.stripOriginallySharedDir else c
           | none => c)
        | none => c
      { result := Except.ok (some c2.dists), comp := c2, skippedWithCache := true, contractUsed := none }
    else
      let bres := buildIfNeeded (some comp) (c.getFiles.getD [])
      match bres.result with
      | Except.error e =>
        { result := Except.error e, comp := c, skippedWithCache := false, contractUsed := bres.contractUsed }
      | Except.ok BuildIfNeededResult.noCompiler =>
        { result := Except.ok none, comp := c, skippedWithCache := false, contractUsed := bres.contractUsed }
      | Except.ok (BuildIfNeededResult.built fs) =>
        if fs.all (fun f => f.contents.isSome) then
          { result := Except.ok (some fs), comp := { c with dists := fs },
            skippedWithCache := false, contractUsed := bres.contractUsed }
        else
          { result := Except.error (BuildError.generalError
              (r"builder interface has to return object with a code attribute that contains string")),
            comp := c, skippedWithCache := false, contractUsed := bres.contractUsed }

/-- The `oneFileSpecResult` closure of the legacy tester path in
`runSpecs`: a successful run gets its `specPath` overwritten with the test
file's relative path; a thrown error becomes a synthetic failing result
for that file alone, carrying the thrown message as the failure title. -/
def oneFileSpecResult (oldA : Path → JsOutcome RawTestResult)
    (filePath relativePath : Path) : RawTestResult :=
  match oldA filePath with
  | JsOutcome.ret results => { results with specPath := relativePath }
  | JsOutcome.thrown msg =>
    { specPath := relativePath, pass := false, tests := [], failures := [{ title := msg }] }

/-- The core `run` closure of `runSpecs` (the surrounding build/isolation
orchestration is side-effecting and not modelled): `null` without a tester
or without test files; the test list comes from the dists when they are
non-empty, otherwise from the files; the modern `action` runs in one batch
(a thrown error propagates as an external test error), the legacy
`oldAction` runs per file through `oneFileSpecResult`; the results are
stored in `specsResults`. -/
def Component.runSpecsRun (c : Component) :
    Option (Except String (List RawTestResult × Component)) :=
  let testFiles := (c.files.getD []).filter (fun f => f.test)
  match c.tester with
  | none => none
  | some tester =>
    if testFiles = [] then none
    else
      let testFilesList : List (Path × Path) :=
        if c.dists ≠ [] then
          (c.dists.filter (fun d => d.test)).map (fun d => (d.path, d.relative))
        else
          testFiles.map (fun f => (f.path, f.relative))
      match tester.action with
      | some act =>
        match act (testFilesList.map (fun tf => tf.1)) with
        | JsOutcome.thrown msg => some (Except.error msg)
        | JsOutcome.ret rs => some (Except.ok (rs, { c with specsResults := some rs }))
      | none =>
        match tester.oldAction with
        | some oldA =>
          let rs := testFilesList.map (fun tf => oneFileSpecResult oldA tf.1 tf.2)
          some (Except.ok (rs, { c with specsResults := some rs }))
        | none => some (Except.error (r"tester has no callable contract"))

/-- The four dependency classes of the prior model snapshot
(`componentFromModel`), which `copyDependenciesFromModel` reads. -/
structure DepSnapshot where
  dependencies : List Dependency
  devDependencies : List Dependency
  compilerDependencies : List Dependency
  testerDependencies : List Dependency
deriving DecidableEq, Repr

/-- One iteration of `copyDependenciesFromModel`: look the id up in the
model's four classes in fixed order (runtime, dev, compiler, tester) and
append the first match to the corresponding current class; `none` when no
class contains the id. -/
def copyOneDependency (m : DepSnapshot) (c : Component) (id : String) : Option Component :=
  match getByIdStr m.dependencies id with
  | some d => some { c with dependencies := c.dependencies ++ [d] }
  | none =>
    match getByIdStr m.devDependencies id with
    | some d => some { c with devDependencies := c.devDependencies ++ [d] }
    | none =>
      match getByIdStr m.compilerDependencies id with
      | some d => some { c with compilerDependencies := c.compilerDependencies ++ [d] }
      | none =>
        match getByIdStr m.testerDependencies id with
        | some d => some { c with testerDependencies := c.testerDependencies ++ [d] }
        | none => none

/-- The `ids.forEach` loop of `copyDependenciesFromModel`; a failing lookup
throws, leaving the mutations made for the earlier ids in place (the error
carries the component state at the moment of the throw). -/
def copyDepsGo (m : DepSnapshot) (c : Component) :
    List String → Except (String × Component) Component
  | [] => Except.ok c
  | id :: rest =>
    match copyOneDependency m c id with
    | some c2 => copyDepsGo m c2 rest
    | none => Except.error (r"copyDependenciesFromModel unable to find dependency " ++ id, c)

/-- `copyDependenciesFromModel(ids)`: throws when the component is missing
from the model, otherwise copies each id from the model snapshot. -/
def Component.copyDependenciesFromModel (c : Component) (model : Option DepSnapshot)
    (ids : List String) : Except (String × Component) Component :=
  match model with
  | none => Except.error (r"copyDependenciesFromModel: component is missing from the model", c)
  | some m => copyDepsGo m c ids

/-- True when the id is found in none of the four classes of the model
snapshot. -/
def absentFromAllClasses (m : DepSnapshot) (id : String) : Bool :=
  (getByIdStr m.dependencies id).isNone
    && (getByIdStr m.devDependencies id).isNone
    && (getByIdStr m.compilerDependencies id).isNone
    && (getByIdStr m.testerDependencies id).isNone

/-- The fields of a component that the round-trip contract declares
observable: identity, files, dists, the four dependency sets, the five
package-dependency maps, the license and the deprecated flag. -/
structure ObsComponent where
  name : String
  scope : Option String
  version : Option String
  files : Option (List SourceFile)
  dists : List Dist
  dependencies : List Dependency
  devDependencies : List Dependency
  compilerDependencies : List Dependency
  testerDependencies : List Dependency
  packageDependencies : List (String × String)
  devPackageDependencies : List (String × String)
  peerPackageDependencies : List (String × String)
  compilerPackageDependencies : List (String × String)
  testerPackageDependencies : List (String × String)
  license : Option License
  deprecated : Bool
deriving DecidableEq, Repr

/-- Projection of a component to its round-trip-observable fields. -/
def Component.obs (c : Component) : ObsComponent :=
  { name := c.name
    scope := c.scope
    version := c.version
    files := c.files
    dists := c.dists
    dependencies := c.dependencies
    devDependencies := c.devDependencies
    compilerDependencies := c.compilerDependencies
    testerDependencies := c.testerDependencies
    packageDependencies := c.packageDependencies
    devPackageDependencies := c.devPackageDependencies
    peerPackageDependencies := c.peerPackageDependencies
    compilerPackageDependencies := c.compilerPackageDependencies
    testerPackageDependencies := c.testerPackageDependencies
    license := c.license
    deprecated := c.deprecated }

/-- The invariants a constructor-built component satisfies that the
round-trip argument needs: non-empty name, non-empty main file, and a main
file that is a fixed point of path normalization (the constructor stores
`path.normalize(mainFile)`). -/
def Component.validCtor (c : Component) : Prop :=
  c.name ≠ r"" ∧ c.mainFile ≠ [] ∧ normalizePath c.mainFile = c.mainFile

instance (c : Component) : Decidable c.validCtor := by
  unfold Component.validCtor
  infer_instance

/-- A minimal concrete component used to instantiate theorems. -/
def baseComponent : Component :=
  { name := r"base"
    version := none
    scope := none
    lang := DEFAULT_LANGUAGE
    bindingPref := defaultBindingsPref
    mainFile := (r"index.js").toList
    compiler := none
    tester := none
    dependencies := []
    devDependencies := []
    compilerDependencies := []
    testerDependencies := []
    packageDependencies := []
    devPackageDependencies := []
    peerPackageDependencies := []
    compilerPackageDependencies := []
    testerPackageDependencies := []
    docsCache := none
    files := none
    dists := []
    specsResults := none
    license := none
    log := none
    deprecated := false
    origin := none
    detachedCompiler := none
    detachedTester := none
    customResolvedPaths := []
    originallySharedDir := none
    wasOriginallySharedDirStripped := false }

/-- A trivial doclet parser used as a concrete stand-in for `docsParser`. -/
def docsParserStub : String → Path → List Doclet :=
  fun _ _ => []

/-- A concrete valid component exercising the round-trip. -/
def sampleComponent : Component :=
  { baseComponent with
    name := r"comp"
    scope := some (r"myscope")
    version := some (r"0.0.1")
    mainFile := (r"index.js").toList
    files := some [{ relative := (r"index.js").toList, base := [], path := (r"index.js").toList,
                     contents := r"module", test := false }]
    dists := [{ relative := (r"dist.js").toList, path := (r"dist.js").toList, test := false,
                contents := some (r"out") }]
    dependencies := [{ id := r"scope/dep", sourcePaths := [(r"index.js").toList] }]
    packageDependencies := [(r"lodash", r"4.0.0")]
    license := some { contents := r"MIT" }
    deprecated := true }

/-- Component for the rebuild-skip counterexample: an IMPORTED component
whose files and dists share the directory a/b. -/
def compC2 : Component :=
  { baseComponent with
    name := r"comp"
    mainFile := (r"a/b/x.js").toList
    compiler := some { name := r"cmp", action := none, oldAction := none }
    files := some [{ relative := (r"a/b/x.js").toList, base := [], path := (r"a/b/x.js").toList,
                     contents := r"src", test := false }]
    dists := [{ relative := (r"a/b/x.js").toList, path := (r"a/b/x.js").toList, test := false,
                contents := some (r"out") }] }

/-- Workspace context reporting the component as NOT modified, with an
IMPORTED index record. -/
def ctxC2 : ConsumerCtx :=
  { modified := false
    distsInsideComponent := true
    componentMap := some { origin := Origin.imported, rootDir := none } }

/-- Component with files a/b/x.js and a/b/y.js and no dependencies. -/
def compC5a : Component :=
  { baseComponent with
    files := some
      [{ relative := (r"a/b/x.js").toList, base := [], path := [], contents := r"", test := false },
       { relative := (r"a/b/y.js").toList, base := [], path := [], contents := r"", test := false }] }

/-- Component with files x.js and a/y.js (no separator in the common
prefix). -/
def compC5b : Component :=
  { baseComponent with
    files := some
      [{ relative := (r"x.js").toList, base := [], path := [], contents := r"", test := false },
       { relative := (r"a/y.js").toList, base := [], path := [], contents := r"", test := false }] }

/-- A model snapshot whose runtime class contains the single id "x". -/
def mSnapC6 : DepSnapshot :=
  { dependencies := [{ id := r"x", sourcePaths := [] }]
    devDependencies := []
    compilerDependencies := []
    testerDependencies := [] }

/-- First test file for the crash-isolation instance. -/
def f1C7 : SourceFile :=
  { relative := (r"t1.spec.js").toList, base := [], path := (r"abs/t1.spec.js").toList,
    contents := r"", test := true }

/-- Second test file for the crash-isolation instance. -/
def f2C7 : SourceFile :=
  { relative := (r"t2.spec.js").toList, base := [], path := (r"abs/t2.spec.js").toList,
    contents := r"", test := true }

/-- A passing raw result returned by the stub tester. -/
def passResC7 : RawTestResult :=
  { specPath := [], pass := true, tests := [r"ok"], failures := [] }

/-- A legacy tester that throws on the first test file and passes the
second. -/
def oldActionC7 : Path → JsOutcome RawTestResult :=
  fun p => if p = (r"abs/t1.spec.js").toList then JsOutcome.thrown (r"boom")
           else JsOutcome.ret passResC7

/-- Component holding the two test files and the legacy tester. -/
def compC7 : Component :=
  { baseComponent with
    files := some [f1C7, f2C7]
    tester := some { action := none, oldAction := some oldActionC7 }
    dists := [] }

/-- A modern compiler action that succeeds with no output files. -/
def modernActionStub : List SourceFile → JsOutcome (Option (List Dist)) :=
  fun _ => JsOutcome.ret (some [])

/-- A legacy compiler action that succeeds with no output files. -/
def legacyActionStub : List SourceFile → JsOutcome (List Dist) :=
  fun _ => JsOutcome.ret []

/-- A compiler exposing BOTH call contracts at once. -/
def compilerBoth : Compiler :=
  { name := r"cmp", action := some modernActionStub, oldAction := some legacyActionStub }

/-- Specification-side notion for the shared-directory computation: `d` is
a common slash-delimited directory prefix of all given paths when `d`
followed by a separator starts every path. -/
def isCommonDirPref (d : Path) (paths : List Path) : Prop :=
  ∀ p ∈ paths, isPref (d ++ ['/']) p = true

/-
  Helper lemmas about prefixes, longest common prefixes and the
  last-separator truncation.
-/

theorem isPref_iff_append (u v : Path) : isPref u v = true ↔ ∃ w, v = u ++ w := by
  induction u generalizing v with
  | nil => simp [isPref]
  | cons a as ih =>
    cases v with
    | nil =>
      simp [isPref]
    | cons b bs =>
      by_cases h : a = b
      · subst h
        simp [isPref, ih]
      · simp only [isPref, if_neg h]
        constructor
        · intro hh
          exact absurd hh (by simp)
        · rintro ⟨w, hw⟩
          rw [List.cons_append] at hw
          injection hw with h1 _
          exact absurd h1.symm h

theorem isPref_refl (u : Path) : isPref u u = true := by
  rw [isPref_iff_append]
  exact ⟨[], by simp⟩

theorem isPref_trans {u v w : Path} (h1 : isPref u v = true) (h2 : isPref v w = true) :
    isPref u w = true := by
  rw [isPref_iff_append] at h1 h2 ⊢
  obtain ⟨x, rfl⟩ := h1
  obtain ⟨y, rfl⟩ := h2
  exact ⟨x ++ y, by simp⟩

theorem isPref_length_le {u v : Path} (h : isPref u v = true) : u.length ≤ v.length := by
  rw [isPref_iff_append] at h
  obtain ⟨w, rfl⟩ := h
  simp

theorem hasSlash_iff_mem (p : Path) : hasSlash p = true ↔ '/' ∈ p := by
  induction p with
  | nil => simp [hasSlash]
  | cons ch t ih =>
    by_cases h : ch = '/'
    · subst h
      simp [hasSlash]
    · rw [hasSlash, if_neg h, ih]
      simp [List.mem_cons, Ne.symm h]

theorem pref_slash_hasSlash {q s : Path} (h : isPref (q ++ ['/']) s = true) :
    hasSlash s = true := by
  rw [isPref_iff_append] at h
  obtain ⟨w, rfl⟩ := h
  rw [hasSlash_iff_mem]
  simp

theorem lcp2_isPref_left (a b : Path) : isPref (lcp2 a b) a = true := by
  induction a generalizing b with
  | nil => cases b <;> simp [lcp2, isPref]
  | cons x as ih =>
    cases b with
    | nil => simp [lcp2, isPref]
    | cons y bs =>
      by_cases h : x = y
      · simp [lcp2, if_pos h, isPref, ih]
      · simp [lcp2, if_neg h, isPref]

theorem lcp2_isPref_right (a b : Path) : isPref (lcp2 a b) b = true := by
  induction a generalizing b with
  | nil => cases b <;> simp [lcp2, isPref]
  | cons x as ih =>
    cases b with
    | nil => simp [lcp2, isPref]
    | cons y bs =>
      by_cases h : x = y
      · subst h
        simp [lcp2, isPref, ih]
      · simp [lcp2, if_neg h, isPref]

theorem isPref_lcp2 {q a b : Path} (ha : isPref q a = true) (hb : isPref q b = true) :
    isPref q (lcp2 a b) = true := by
  induction q generalizing a b with
  | nil => simp [isPref]
  | cons x qs ih =>
    cases a with
    | nil => simp [isPref] at ha
    | cons a1 as =>
      cases b with
      | nil => simp [isPref] at hb
      | cons b1 bs =>
        simp only [isPref] at ha hb
        by_cases h1 : x = a1
        · by_cases h2 : x = b1
          · rw [if_pos h1] at ha
            rw [if_pos h2] at hb
            have hab : a1 = b1 := h1 ▸ h2
            simp only [lcp2, if_pos hab]
            simp only [isPref, if_pos h1]
            exact ih ha hb
          · rw [if_neg h2] at hb
            exact absurd hb (by simp)
        · rw [if_neg h1] at ha
          exact absurd ha (by simp)

theorem foldl_lcp2_isPref {q : Path} :
    ∀ (rest : List Path) (acc : Path), isPref q acc = true →
      (∀ p ∈ rest, isPref q p = true) → isPref q (rest.foldl lcp2 acc) = true := by
  intro rest
  induction rest with
  | nil =>
    intro acc h _
    simpa using h
  | cons r rs ih =>
    intro acc hacc hall
    simp only [List.foldl_cons]
    exact ih (lcp2 acc r) (isPref_lcp2 hacc (hall r (by simp)))
      (fun p hp => hall p (by simp [hp]))

theorem foldl_lcp2_pref_acc :
    ∀ (rest : List Path) (acc : Path), isPref (rest.foldl lcp2 acc) acc = true := by
  intro rest
  induction rest with
  | nil => intro acc; exact isPref_refl acc
  | cons r rs ih =>
    intro acc
    simp only [List.foldl_cons]
    exact isPref_trans (ih (lcp2 acc r)) (lcp2_isPref_left acc r)

theorem foldl_lcp2_pref_mem :
    ∀ (rest : List Path) (acc p : Path), p ∈ rest →
      isPref (rest.foldl lcp2 acc) p = true := by
  intro rest
  induction rest with
  | nil =>
    intro acc p hp
    simp at hp
  | cons r rs ih =>
    intro acc p hp
    simp only [List.foldl_cons]
    rcases List.mem_cons.mp hp with h | h
    · subst h
      exact isPref_trans (foldl_lcp2_pref_acc rs (lcp2 acc p)) (lcp2_isPref_right acc p)
    · exact ih (lcp2 acc r) p h

theorem sharedStart_isPref {paths : List Path} {p : Path} (hp : p ∈ paths) :
    isPref (sharedStartOfArray paths) p = true := by
  cases paths with
  | nil => simp at hp
  | cons q rest =>
    rcases List.mem_cons.mp hp with h | h
    · subst h
      exact foldl_lcp2_pref_acc rest p
    · exact foldl_lcp2_pref_mem rest q p h

theorem isPref_sharedStart {paths : List Path} {q : Path} (hne : paths ≠ [])
    (h : ∀ p ∈ paths, isPref q p = true) :
    isPref q (sharedStartOfArray paths) = true := by
  cases paths with
  | nil => exact absurd rfl hne
  | cons p0 rest =>
    exact foldl_lcp2_isPref rest p0 (h p0 (by simp)) (fun p hp => h p (by simp [hp]))

theorem takeBeforeLastSlash_pref {s : Path} (hs : hasSlash s = true) :
    isPref (takeBeforeLastSlash s ++ ['/']) s = true := by
  induction s with
  | nil => simp [hasSlash] at hs
  | cons ch t ih =>
    by_cases h : hasSlash t = true
    · simp only [takeBeforeLastSlash, if_pos h, List.cons_append]
      simp only [isPref, if_pos rfl]
      exact ih h
    · have hch : ch = '/' := by
        rw [hasSlash] at hs
        by_cases hc : ch = '/'
        · exact hc
        · rw [if_neg hc] at hs
          exact absurd hs h
      subst hch
      simp only [takeBeforeLastSlash, if_neg h, List.nil_append]
      simp [isPref]

theorem takeBeforeLastSlash_maximal {q : Path} :
    ∀ {s : Path}, isPref (q ++ ['/']) s = true →
      q.length ≤ (takeBeforeLastSlash s).length := by
  induction q with
  | nil =>
    intro s _
    simp
  | cons a q2 ih =>
    intro s h
    cases s with
    | nil =>
      rw [isPref_iff_append] at h
      obtain ⟨w, hw⟩ := h
      simp at hw
    | cons ch t =>
      rw [List.cons_append] at h
      simp only [isPref] at h
      by_cases hc : a = ch
      · rw [if_pos hc] at h
        have ht : hasSlash t = true := pref_slash_hasSlash h
        simp only [takeBeforeLastSlash, if_pos ht, List.length_cons]
        exact Nat.succ_le_succ (ih h)
      · rw [if_neg hc] at h
        exact absurd h (by simp)

theorem strip_sets_flag (c : Component) :
    c.stripOriginallySharedDir.wasOriginallySharedDirStripped = true := by
  rw [Component.stripOriginallySharedDir]
  by_cases h : c.wasOriginallySharedDirStripped = true
  · rw [if_pos h]
    exact h
  · rw [if_neg h]

/-- C4: strip idempotence — for every input component, calling
`stripOriginallySharedDir` twice never changes anything beyond the first
call's effect; the second invocation leaves the component unchanged. -/
theorem c4_strip_idempotent (c : Component) :
    c.stripOriginallySharedDir.stripOriginallySharedDir = c.stripOriginallySharedDir := by
  have h := strip_sets_flag c
  generalize c.stripOriginallySharedDir = x at h ⊢
  rw [Component.stripOriginallySharedDir, if_pos h]

/-- C10: docs memoization without invalidation — once `docs` has been
accessed, later changes to the files do not change what subsequent `docs`
accesses return; and when the component has no files, the computed doclet
list is empty. -/
theorem c10_docs_memoization :
    (∀ (parser : String → Path → List Doclet) (c : Component)
        (newFiles : Option (List SourceFile)),
      (Component.getDocs parser { (Component.getDocs parser c).2 with files := newFiles }).1
        = (Component.getDocs parser c).1)
    ∧ (∀ (parser : String → Path → List Doclet) (c : Component),
        c.docsCache = none → c.files = none → (Component.getDocs parser c).1 = []) := by
  constructor
  · intro parser c newFiles
    cases hd : c.docsCache with
    | some d => simp [Component.getDocs, hd]
    | none => simp [Component.getDocs, hd]
  · intro parser c h1 h2
    simp [Component.getDocs, h1, h2]

/-- Witness for C10 at a concrete component with no cached docs and no
files. -/
theorem c10_witness :
    baseComponent.docsCache = none ∧ baseComponent.files = none
      ∧ (Component.getDocs docsParserStub baseComponent).1 = [] :=
  ⟨rfl, rfl, c10_docs_memoization.2 docsParserStub baseComponent rfl rfl⟩

/-- C9: legacy dist-array compatibility — `fromString` on a document whose
dists field is a bare array and on one whose dists field is the wrapped
object with the same inner records produce identical components (in
particular identical in-memory dist lists). -/
theorem c9_dists_compat (doc : ParsedDoc) (l : List DistObj) :
    fromStringModel { doc with dists := DistsField.arr l }
      = fromStringModel { doc with dists := DistsField.wrapped l } := rfl

/-- C3: the code evaluated at the claim's inputs.  An empty `name` is
rejected as the claim states, but an empty `mainFile` is ACCEPTED: the
constructor stores `path.normalize(mainFile)` BEFORE `validateComponent`
runs, and Node normalizes the empty string to ".", which is truthy. -/
theorem c3_construction_validation :
    (mkComponent { name := r"", mainFile := (r"a.js").toList, files := none }).isOk = false
    ∧ (mkComponent { name := r"comp", mainFile := [], files := none }).toOption.map
        (fun c => c.mainFile) = some ['.']
    ∧ (mkComponent { name := r"comp", mainFile := (r"a.js").toList, files := none }).isOk
        = true := by
  exact ⟨by decide, by decide, by decide⟩

/-- C8 counterexample: a compiler exposing BOTH contracts (so NOT exactly
one) is not rejected with InvalidCompilerInterface; the modern action is
simply used. -/
theorem c8_counterexample :
    buildIfNeeded (some compilerBoth) []
      = { result := Except.ok (BuildIfNeededResult.built []),
          contractUsed := some ContractKind.modern }
    ∧ (buildIfNeeded (some compilerBoth) []).result
        ≠ Except.error (BuildError.invalidCompilerInterface compilerBoth.name) :=
  ⟨rfl, by decide⟩

/-- C8 (amended): the build rejects with InvalidCompilerInterface exactly
when NEITHER of the two call contracts is present; when the modern action
is present it takes precedence (the legacy contract is not used). -/
theorem c8_compiler_interface (comp : Compiler) (files : List SourceFile) :
    ((buildIfNeeded (some comp) files).result
        = Except.error (BuildError.invalidCompilerInterface comp.name)
      ↔ comp.action = none ∧ comp.oldAction = none)
    ∧ (∀ act, comp.action = some act →
        (buildIfNeeded (some comp) files).contractUsed = some ContractKind.modern) := by
  obtain ⟨nm, act0, old0⟩ := comp
  cases act0 with
  | some act =>
    constructor
    · cases hres : act files with
      | thrown msg => simp [buildIfNeeded, hres]
      | ret v => cases v <;> simp [buildIfNeeded, hres]
    · intro act2 hh
      cases hres : act files with
      | thrown msg => simp [buildIfNeeded, hres]
      | ret v => cases v <;> simp [buildIfNeeded, hres]
  | none =>
    cases old0 with
    | some oldA =>
      constructor
      · cases hres : oldA files with
        | thrown msg => simp [buildIfNeeded, hres]
        | ret fs => simp [buildIfNeeded, hres]
      · intro act2 hh
        exact absurd hh (by simp)
    | none =>
      constructor
      · simp [buildIfNeeded]
      · intro act2 hh
        exact absurd hh (by simp)

/-- Witness for C8 at the concrete compiler exposing both contracts. -/
theorem c8_witness :
    (buildIfNeeded (some compilerBoth) []).contractUsed = some ContractKind.modern :=
  (c8_compiler_interface compilerBoth []).2 modernActionStub rfl

/-- C7: test-crash isolation — with two test files under the legacy
per-file tester contract, a tester that throws on the first file and
passes the second yields a result list of length two whose first entry is
a synthetic failing result carrying the thrown message and whose second
entry passes. -/
theorem c7_crash_isolation (oldA : Path → JsOutcome RawTestResult) (c : Component)
    (f1 f2 : SourceFile) (msg : String) (res : RawTestResult)
    (hfiles : c.files = some [f1, f2]) (ht1 : f1.test = true) (ht2 : f2.test = true)
    (hdists : c.dists = [])
    (htester : c.tester = some { action := none, oldAction := some oldA })
    (h1 : oldA f1.path = JsOutcome.thrown msg) (h2 : oldA f2.path = JsOutcome.ret res)
    (hpass : res.pass = true) :
    (∃ c2, c.runSpecsRun = some (Except.ok
      ([{ specPath := f1.relative, pass := false, tests := [], failures := [{ title := msg }] },
        { res with specPath := f2.relative }], c2)))
    ∧ ({ res with specPath := f2.relative }).pass = true := by
  constructor
  · unfold Component.runSpecsRun
    simp only [hfiles, htester, hdists, Option.getD_some]
    simp [List.filter_cons, ht1, ht2, oneFileSpecResult, h1, h2]
  · simpa using hpass

/-- Witness for C7 at a concrete component and tester stub. -/
theorem c7_witness :
    (∃ c2, compC7.runSpecsRun = some (Except.ok
      ([{ specPath := f1C7.relative, pass := false, tests := [], failures := [{ title := r"boom" }] },
        { passResC7 with specPath := f2C7.relative }], c2)))
    ∧ ({ passResC7 with specPath := f2C7.relative }).pass = true :=
  c7_crash_isolation oldActionC7 compC7 f1C7 f2C7 (r"boom") passResC7
    rfl rfl rfl rfl rfl (by decide) (by decide) rfl

theorem absent_copyOne {m : DepSnapshot} {id : String}
    (habs : absentFromAllClasses m id = true) (c : Component) :
    copyOneDependency m c id = none := by
  unfold absentFromAllClasses at habs
  simp only [Bool.and_eq_true, Option.isNone_iff_eq_none] at habs
  obtain ⟨⟨⟨hh1, hh2⟩, hh3⟩, hh4⟩ := habs
  unfold copyOneDependency
  rw [hh1, hh2, hh3, hh4]

theorem copyDepsGo_absent {m : DepSnapshot} {id : String}
    (habs : absentFromAllClasses m id = true) :
    ∀ (ids : List String) (c : Component), id ∈ ids →
      ∃ msg c2, copyDepsGo m c ids = Except.error (msg, c2) := by
  intro ids
  induction ids with
  | nil =>
    intro c hmem
    simp at hmem
  | cons a rest ih =>
    intro c hmem
    rcases List.mem_cons.mp hmem with h | h
    · subst h
      exact ⟨r"copyDependenciesFromModel unable to find dependency " ++ id, c,
        by simp [copyDepsGo, absent_copyOne habs]⟩
    · cases hco : copyOneDependency m c a with
      | some c2 =>
        obtain ⟨msg, c3, hh⟩ := ih c2 h
        exact ⟨msg, c3, by simp [copyDepsGo, hco, hh]⟩
      | none =>
        exact ⟨r"copyDependenciesFromModel unable to find dependency " ++ a, c,
          by simp [copyDepsGo, hco]⟩

/-- C6 counterexample: with the model's runtime class containing "x" and
`ids = ["x", "missing"]`, the operation fails but the runtime dependency
class HAS been mutated ("x" was copied before the failure). -/
theorem c6_counterexample :
    ∃ msg c2, baseComponent.copyDependenciesFromModel (some mSnapC6) [(r"x"), (r"missing")]
        = Except.error (msg, c2) ∧ c2.dependencies ≠ baseComponent.dependencies :=
  ⟨_, _, rfl, by decide⟩

/-- C6 (amended): each id is looked up in the model's four classes in
fixed order (runtime first, then dev, compiler, tester) and the first
match is copied into the corresponding current class; when some id is
absent from all four classes the operation fails, and the component is
left as it was after the ids preceding the failing one were copied — in
particular no class is mutated when the absent id comes first. -/
theorem c6_copy_dependencies :
    (∀ (m : DepSnapshot) (c : Component) (ids : List String) (id : String),
        id ∈ ids → absentFromAllClasses m id = true →
        ∃ msg c2, c.copyDependenciesFromModel (some m) ids = Except.error (msg, c2))
    ∧ (∀ (m : DepSnapshot) (c : Component) (id : String) (rest : List String),
        absentFromAllClasses m id = true →
        ∃ msg, c.copyDependenciesFromModel (some m) (id :: rest) = Except.error (msg, c))
    ∧ (∀ (m : DepSnapshot) (c : Component) (id : String) (d : Dependency),
        getByIdStr m.dependencies id = some d →
        copyOneDependency m c id = some { c with dependencies := c.dependencies ++ [d] })
    ∧ (∀ (m : DepSnapshot) (c : Component) (id : String) (d : Dependency),
        getByIdStr m.dependencies id = none → getByIdStr m.devDependencies id = some d →
        copyOneDependency m c id = some { c with devDependencies := c.devDependencies ++ [d] }) := by
  refine ⟨?_, ?_, ?_, ?_⟩
  · intro m c ids id hmem habs
    unfold Component.copyDependenciesFromModel
    exact copyDepsGo_absent habs ids c hmem
  · intro m c id rest habs
    unfold Component.copyDependenciesFromModel
    exact ⟨r"copyDependenciesFromModel unable to find dependency " ++ id,
      by simp [copyDepsGo, absent_copyOne habs c]⟩
  · intro m c id d hd
    unfold copyOneDependency
    rw [hd]
  · intro m c id d hd1 hd2
    unfold copyOneDependency
    rw [hd1, hd2]

/-- Witness for C6: an id absent from every class fails immediately and
leaves the component untouched. -/
theorem c6_witness :
    absentFromAllClasses mSnapC6 (r"missing") = true
      ∧ ∃ msg, baseComponent.copyDependenciesFromModel (some mSnapC6) [(r"missing")]
          = Except.error (msg, baseComponent) :=
  ⟨by decide, c6_copy_dependencies.2.1 mSnapC6 baseComponent (r"missing") [] (by decide)⟩

/-- C2 counterexample: an IMPORTED component with compiler, non-empty
cached dists, no-cache unset and a workspace reporting "not modified"
takes the skip path without invoking the compiler, but the returned dists
are NOT the cached dists unchanged: the shared directory a/b has been
stripped from their paths. -/
theorem c2_counterexample :
    (compC2.build false (some ctxC2)).skippedWithCache = true
    ∧ (compC2.build false (some ctxC2)).contractUsed = none
    ∧ (compC2.build false (some ctxC2)).result ≠ Except.ok (some compC2.dists) :=
  ⟨by decide, by decide, by decide⟩

/-- C2 (amended): with a compiler, non-empty cached dists and no-cache
unset, `build` never invokes a compiler contract when there is no
workspace context or the workspace reports "not modified", and returns
the cached dists — unchanged, except that for a workspace-context
IMPORTED component the originally-shared-directory strip is first
re-applied to them; when the no-cache flag is set the cached-dists skip
path is never taken. -/
theorem c2_rebuild_skip :
    (∀ (c : Component) (comp : Compiler), c.compiler = some comp → c.dists ≠ [] →
      (c.build false none).contractUsed = none
        ∧ (c.build false none).result = Except.ok (some c.dists))
    ∧ (∀ (c : Component) (comp : Compiler) (ctx : ConsumerCtx),
        c.compiler = some comp → c.dists ≠ [] → ctx.modified = false →
        (c.build false (some ctx)).contractUsed = none
          ∧ (c.build false (some ctx)).result = Except.ok (some (match ctx.componentMap with
              | some m => if m.origin = Origin.imported
                  then c.stripOriginallySharedDir.dists else c.dists
              | none => c.dists)))
    ∧ (∀ (c : Component) (comp : Compiler) (consumer : Option ConsumerCtx),
        c.compiler = some comp → (c.build true consumer).skippedWithCache = false) := by
  refine ⟨?_, ?_, ?_⟩
  · intro c comp hcomp hdists
    unfold Component.build
    rw [hcomp]
    dsimp only
    rw [if_pos ⟨rfl, hdists⟩]
    exact ⟨rfl, rfl⟩
  · intro c comp ctx hcomp hdists hmod
    unfold Component.build
    rw [hcomp]
    dsimp only
    rw [hmod]
    rw [if_pos ⟨rfl, hdists⟩]
    cases hm : ctx.componentMap with
    | none => exact ⟨rfl, rfl⟩
    | some m =>
      dsimp only
      by_cases ho : m.origin = Origin.imported
      · simp only [if_pos ho]
        exact ⟨trivial, trivial⟩
      · simp only [if_neg ho]
        exact ⟨trivial, trivial⟩
  · intro c comp consumer hcomp
    unfold Component.build
    rw [hcomp]
    dsimp only
    rw [if_neg (by simp)]
    cases hb : (buildIfNeeded (some comp) (c.getFiles.getD [])).result with
    | error e => simp [hb]
    | ok r =>
      cases r with
      | noCompiler => simp [hb]
      | built fs =>
        by_cases hall : fs.all (fun f => f.contents.isSome) = true
        · simp [hb, hall]
        · simp [hb, hall]

/-- Witness for C2 with no workspace context. -/
theorem c2_witness :
    compC2.dists ≠ []
      ∧ (compC2.build false none).contractUsed = none
      ∧ (compC2.build false none).result = Except.ok (some compC2.dists) := by
  refine ⟨by decide, ?_, ?_⟩
  · exact (c2_rebuild_skip.1 compC2 { name := r"cmp", action := none, oldAction := none }
      rfl (by decide)).1
  · exact (c2_rebuild_skip.1 compC2 { name := r"cmp", action := none, oldAction := none }
      rfl (by decide)).2

/-- C5: shared-directory computation — `setOriginallySharedDir` records
exactly the longest common slash-delimited directory over the component's
own (linux-normalized) relative file paths and the recorded source paths
of all four dependency classes: when nothing is recorded no common
directory exists, and when `d` is recorded it is a common directory of
maximal length.  The two concrete instances of the claim are included:
files a/b/x.js and a/b/y.js give "a/b", files x.js and a/y.js give
nothing. -/
theorem c5_shared_dir :
    (∀ c : Component, c.originallySharedDir = none → c.allSharedPaths ≠ [] →
      ((c.setOriginallySharedDir.originallySharedDir = none →
          ∀ d, ¬ isCommonDirPref d c.allSharedPaths)
        ∧ ∀ d, c.setOriginallySharedDir.originallySharedDir = some d →
            isCommonDirPref d c.allSharedPaths
              ∧ ∀ d2, isCommonDirPref d2 c.allSharedPaths → d2.length ≤ d.length))
    ∧ compC5a.setOriginallySharedDir.originallySharedDir = some ((r"a/b").toList)
    ∧ compC5b.setOriginallySharedDir.originallySharedDir = none := by
  refine ⟨?_, by decide, by decide⟩
  intro c h0 hne
  unfold Component.setOriginallySharedDir
  rw [if_neg (by simp [h0])]
  dsimp only
  by_cases hnil : sharedStartOfArray c.allSharedPaths = []
  · rw [if_pos hnil]
    constructor
    · intro _ d hd
      have hss := isPref_sharedStart hne hd
      rw [hnil] at hss
      have hlen := isPref_length_le hss
      simp at hlen
    · intro d hd
      rw [h0] at hd
      exact absurd hd (by simp)
  · rw [if_neg hnil]
    by_cases hsl : hasSlash (sharedStartOfArray c.allSharedPaths) = true
    · rw [if_neg (by simp [hsl])]
      constructor
      · intro habs
        exact absurd habs (by simp)
      · intro d hd
        have hd2 : takeBeforeLastSlash (sharedStartOfArray c.allSharedPaths) = d := by
          simpa using hd
        subst hd2
        constructor
        · intro p hp
          exact isPref_trans (takeBeforeLastSlash_pref hsl) (sharedStart_isPref hp)
        · intro d2 hcommon
          exact takeBeforeLastSlash_maximal (isPref_sharedStart hne hcommon)
    · rw [if_pos (by simpa using hsl)]
      constructor
      · intro _ d hd
        have hss := isPref_sharedStart hne hd
        exact hsl (pref_slash_hasSlash hss)
      · intro d hd
        rw [h0] at hd
        exact absurd hd (by simp)

/-- Witness for C5 at the concrete two-file component. -/
theorem c5_witness :
    compC5a.originallySharedDir = none ∧ compC5a.allSharedPaths ≠ []
      ∧ ((compC5a.setOriginallySharedDir.originallySharedDir = none →
            ∀ d, ¬ isCommonDirPref d compC5a.allSharedPaths)
          ∧ ∀ d, compC5a.setOriginallySharedDir.originallySharedDir = some d →
              isCommonDirPref d compC5a.allSharedPaths
                ∧ ∀ d2, isCommonDirPref d2 compC5a.allSharedPaths → d2.length ≤ d.length) :=
  ⟨by decide, by decide, c5_shared_dir.1 compC5a (by decide) (by decide)⟩

/-- C1: serialization round-trip — for a valid in-memory component,
`fromObject(toObject(c))` succeeds and reproduces every observable field
(identity, files, dists, the four dependency sets, the five
package-dependency maps, license, deprecated), with `deprecated`
defaulting to false when absent (toObject always emits it, and the
default applies en route through the constructor). -/
theorem c1_roundtrip (parser : String → Path → List Doclet) (c : Component)
    (h : c.validCtor) :
    ∃ c2, Component.fromObject (Component.toObject parser c) = Except.ok c2
      ∧ c2.obs = c.obs := by
  obtain ⟨h1, h2, h3⟩ := h
  unfold Component.fromObject Component.toObject mkComponent
  dsimp only
  rw [h3]
  rw [if_neg h1, if_neg h2]
  exact ⟨_, rfl, rfl⟩

/-- Witness for C1 at a concrete valid component. -/
theorem c1_witness :
    sampleComponent.validCtor
      ∧ ∃ c2, Component.fromObject (Component.toObject docsParserStub sampleComponent)
          = Except.ok c2 ∧ c2.obs = sampleComponent.obs :=
  ⟨by decide, c1_roundtrip docsParserStub sampleComponent (by decide)⟩

end BitCore


